import Mathlib

/-!
Verification of the App Engine placeholder server (`src/main.py`).

The program is a Flask application with a single route:

  @app.route('/')
  def index():
      return "This route should not be reached - check app.yaml static handlers"

  if __name__ == '__main__':
      app.run(host='0.0.0.0', port=8080)

We shallowly embed the handler and the Flask routing layer that serves it.
The routing semantics (404 for unmatched paths, automatic HEAD/OPTIONS for a
route declared without an explicit method list, 405 for other methods) is
Flask's documented dispatch behaviour, which the spec treats as the serving
framework.
-/

namespace MainPy

/-- HTTP methods relevant to Flask dispatch. -/
inductive Method
  | GET
  | HEAD
  | OPTIONS
  | POST
  | PUT
  | DELETE
  | PATCH
  deriving DecidableEq, Repr

open Method

/-- An inbound HTTP request: method, path, and the parts the handler never
    inspects (headers, query string, body). -/
structure Request where
  method : Method
  path : String
  headers : List (String × String)
  query : List (String × String)
  body : String
  deriving DecidableEq, Repr

/-- An HTTP response: numeric status code and textual body. -/
structure Response where
  status : Nat
  body : String
  deriving DecidableEq, Repr

/-- The result of dispatching one request: the response sent to the client,
    together with whether the user-defined view function (`index`) ran. -/
structure DispatchResult where
  response : Response
  handlerRan : Bool
  deriving DecidableEq, Repr

/-- The fixed diagnostic string returned by `index` (src/main.py line 10). -/
def diagnosticBody : String :=
  "This route should not be reached - check app.yaml static handlers"

/-- The view function `index` (src/main.py lines 8-10): takes no arguments
    and returns the fixed diagnostic string. -/
def index : String := diagnosticBody

/-- A Flask route: URL rule, the methods declared in the decorator, and the
    view function (which in this program ignores the request). -/
structure Route where
  rule : String
  declaredMethods : List Method
  view : Unit → String

/-- The route table built by the decorators in src/main.py: a single route
    `@app.route('/')` with no explicit `methods` argument, so the declared
    method list is Flask's default `[GET]`. -/
def routes : List Route :=
  [{ rule := "/", declaredMethods := [GET], view := fun _ => index }]

/-- Flask's default 404 page body (framework behaviour, not code of this
    repository): the response sent when no URL rule matches the path. -/
def notFoundBody : String :=
  "404 Not Found: The requested URL was not found on the server."

/-- Flask's default 405 page body (framework behaviour): the response sent
    when a rule matches the path but the method is not allowed. -/
def methodNotAllowedBody : String :=
  "405 Method Not Allowed: The method is not allowed for the requested URL."

/-- Flask dispatch for a matched route, following Flask's documented method
    handling for a route declared without an explicit method list:
    * a declared method (here GET) runs the view and answers 200;
    * HEAD is served automatically via the GET view with the body stripped;
    * OPTIONS is answered automatically by the framework without running
      the view;
    * any other method gets the framework's 405 response and the view does
      not run. -/
def dispatchMatched (r : Route) (req : Request) : DispatchResult :=
  if req.method ∈ r.declaredMethods then
    { response := { status := 200, body := r.view () }, handlerRan := true }
  else if req.method = HEAD ∧ GET ∈ r.declaredMethods then
    { response := { status := 200, body := "" }, handlerRan := true }
  else if req.method = OPTIONS then
    { response := { status := 200, body := "" }, handlerRan := false }
  else
    { response := { status := 405, body := methodNotAllowedBody },
      handlerRan := false }

/-- Full dispatch of one request against the application's route table:
    the first route whose rule equals the request path handles it; if none
    matches, the framework answers 404 and no view function runs. -/
def dispatch (req : Request) : DispatchResult :=
  match routes.find? (fun r => r.rule = req.path) with
  | some r => dispatchMatched r req
  | none =>
      { response := { status := 404, body := notFoundBody }, handlerRan := false }

/-! ### A deep embedding of the body of `index`

To settle the effect and totality claims we also embed the Python statements
of the function body and an evaluator over an explicit effect state, rather
than only the already-pure shallow version. -/

/-- Expressions of the Python fragment used by src/main.py: the body of
    `index` contains only a string literal. -/
inductive PyExpr
  | lit (s : String)
  deriving DecidableEq, Repr

/-- Statements of the Python fragment: a return statement; plus the effectful
    statement forms (logging, global assignment) that the body of `index`
    could have contained but does not, so that "no side effects" is a fact
    about the body and not about the statement language. -/
inductive PyStmt
  | ret (e : PyExpr)
  | logCall (msg : String)
  | assignGlobal (name : String) (e : PyExpr)
  deriving DecidableEq, Repr

/-- Observable program state around a handler call: module-level globals and
    emitted log lines. -/
structure PyState where
  globals : List (String × String)
  logLines : List String
  deriving DecidableEq, Repr

/-- Expression evaluation: a literal evaluates to itself. -/
def evalExpr : PyExpr → String
  | .lit s => s

/-- Execute a function body: statements run in order, mutating the state;
    `return` stops with `some` value; falling off the end yields Python's
    implicit `None`, modelled as `none`. No statement of the fragment can
    raise, so the evaluator is total and needs no error channel. -/
def execStmts : List PyStmt → PyState → PyState × Option String
  | [], s => (s, none)
  | .ret e :: _, s => (s, some (evalExpr e))
  | .logCall m :: rest, s =>
      execStmts rest { s with logLines := s.logLines ++ [m] }
  | .assignGlobal n e :: rest, s =>
      execStmts rest { s with globals := (n, evalExpr e) :: s.globals }

/-- The body of `index` as written in src/main.py lines 9-10: a single
    return of the diagnostic string literal. -/
def indexBody : List PyStmt :=
  [.ret (.lit "This route should not be reached - check app.yaml static handlers")]

/-! ### The `__main__` guard -/

/-- Server binding configuration: host interface and TCP port. -/
structure RunConfig where
  host : String
  port : Nat
  deriving DecidableEq, Repr

/-- The module-level guard of src/main.py lines 12-13: when the module runs
    as the main program, `app.run(host='0.0.0.0', port=8080)` executes and
    the listener binds; when the module is merely imported, no run call
    happens and no port is bound. -/
def listenerStarted (isMainProgram : Bool) : Option RunConfig :=
  if isMainProgram then some { host := "0.0.0.0", port := 8080 } else none

end MainPy

namespace MainPy

open Method

/-! ### Claims -/

/-- C1: every HTTP GET request to the root path `/` — whatever its headers,
query string, or body — is answered with status 200 and a body equal to the
fixed diagnostic string
"This route should not be reached - check app.yaml static handlers". -/
theorem c1_get_root_fixed_response :
    ∀ (h q : List (String × String)) (b : String),
      dispatch { method := GET, path := "/", headers := h, query := q, body := b } =
        { response :=
            { status := 200,
              body := "This route should not be reached - check app.yaml static handlers" },
          handlerRan := true } := by
  intro h q b
  rfl

/-- C2 counterexample: the claim that the method is irrelevant is false — a
POST request to `/` is answered with status 405 and a body different from the
fixed diagnostic string, not with 200 and the diagnostic body. -/
theorem c2_counterexample_post_root :
    (dispatch { method := POST, path := "/", headers := [], query := [], body := "" }).response.status = 405 ∧
    (dispatch { method := POST, path := "/", headers := [], query := [], body := "" }).response.body ≠
      diagnosticBody := by
  decide

/-- C2 (amended): for every request to `/`, the response status is 200 exactly
when the method is GET, HEAD or OPTIONS and 405 otherwise, and the body is the
fixed diagnostic string exactly for GET; the method does matter. -/
theorem c2_method_determines_response :
    ∀ (m : Method) (h q : List (String × String)) (b : String),
      (dispatch { method := m, path := "/", headers := h, query := q, body := b }).response.status =
        (if m = GET ∨ m = HEAD ∨ m = OPTIONS then 200 else 405) ∧
      ((dispatch { method := m, path := "/", headers := h, query := q, body := b }).response.body =
          diagnosticBody ↔ m = GET) := by
  intro m h q b
  cases m <;>
    refine ⟨rfl, ?_⟩ <;>
    simp [dispatch, dispatchMatched, routes, index, diagnosticBody, List.find?,
      methodNotAllowedBody]

/-- C3: the application defines exactly one route, whose rule is `/`; every
request whose path is not `/` is answered by the framework's default 404
response, no view function runs, and the body is not the diagnostic string. -/
theorem c3_single_route_not_found :
    routes.length = 1 ∧ (∀ r ∈ routes, r.rule = "/") ∧
    ∀ req : Request, req.path ≠ "/" →
      dispatch req =
        { response := { status := 404, body := notFoundBody }, handlerRan := false } ∧
      notFoundBody ≠ diagnosticBody := by
  refine ⟨rfl, ?_, ?_⟩
  · intro r hr
    simp only [routes, List.mem_singleton] at hr
    rw [hr]
  · intro req hreq
    refine ⟨?_, by decide⟩
    have hne : ¬ ("/" = req.path) := fun h => hreq h.symm
    simp [dispatch, routes, List.find?, hne]

/-- C3 witness: the theorem applied to the concrete path `/missing`. -/
theorem c3_single_route_not_found_witness :
    ("/missing" : String) ≠ "/" ∧
    dispatch { method := GET, path := "/missing", headers := [], query := [], body := "" } =
      { response := { status := 404, body := notFoundBody }, handlerRan := false } := by
  refine ⟨by decide, ?_⟩
  exact (c3_single_route_not_found.2.2
    { method := GET, path := "/missing", headers := [], query := [], body := "" }
    (by decide)).1

/-- C4: the body of `index` has no side effects: executed from any observable
state, it leaves the module globals and the emitted log lines unchanged. -/
theorem c4_index_no_side_effects :
    ∀ s : PyState,
      (execStmts indexBody s).1.globals = s.globals ∧
      (execStmts indexBody s).1.logLines = s.logLines := by
  intro s
  exact ⟨rfl, rfl⟩

/-- C5: the response to a request to `/` does not depend on headers, query
string, or body: two requests to `/` with the same method but arbitrary other
parts receive identical dispatch results. -/
theorem c5_response_ignores_request_data :
    ∀ (m : Method) (h₁ q₁ : List (String × String)) (b₁ : String)
      (h₂ q₂ : List (String × String)) (b₂ : String),
      dispatch { method := m, path := "/", headers := h₁, query := q₁, body := b₁ } =
      dispatch { method := m, path := "/", headers := h₂, query := q₂, body := b₂ } := by
  intro m h₁ q₁ b₁ h₂ q₂ b₂
  rfl

/-- C6: run as the main program, the server binds host 0.0.0.0 and port 8080. -/
theorem c6_main_binds_all_interfaces_8080 :
    listenerStarted true = some { host := "0.0.0.0", port := 8080 } := rfl

/-- C7: a request to `/` whose method is not GET, HEAD, or OPTIONS is rejected
with the framework's 405 response; the view function does not run and the body
is not the diagnostic string. -/
theorem c7_other_methods_rejected :
    ∀ m : Method, m ≠ GET → m ≠ HEAD → m ≠ OPTIONS →
      ∀ (h q : List (String × String)) (b : String),
        dispatch { method := m, path := "/", headers := h, query := q, body := b } =
          { response := { status := 405, body := methodNotAllowedBody },
            handlerRan := false } ∧
        methodNotAllowedBody ≠ diagnosticBody := by
  intro m hg hh ho h q b
  cases m
  · exact absurd rfl hg
  · exact absurd rfl hh
  · exact absurd rfl ho
  all_goals exact ⟨rfl, by decide⟩

/-- C7 witness: the theorem applied to a POST request to `/`. -/
theorem c7_other_methods_rejected_witness :
    (POST ≠ GET ∧ POST ≠ HEAD ∧ POST ≠ OPTIONS) ∧
    dispatch { method := POST, path := "/", headers := [], query := [], body := "" } =
      { response := { status := 405, body := methodNotAllowedBody },
        handlerRan := false } := by
  refine ⟨by decide, ?_⟩
  exact (c7_other_methods_rejected POST (by decide) (by decide) (by decide) [] [] "").1

/-- C8: the body of `index` is total: from any state, executing it terminates
(the evaluator is structurally recursive and the body is a single statement),
raises nothing (the evaluator has no error channel for this fragment), and
returns the diagnostic string rather than falling off the end with `None`. -/
theorem c8_index_total_returns_string :
    ∀ s : PyState, execStmts indexBody s = (s, some diagnosticBody) := by
  intro s
  rfl

/-- C9: merely importing the module does not start the HTTP listener: when the
module is not the main program, no host/port binding occurs. -/
theorem c9_import_does_not_listen : listenerStarted false = none := rfl

end MainPy
